import Mathlib

/-!
Shallow embedding of the image pipeline in `src/main.py` (sticker-creator).

Pixels are RGBA quadruples of naturals (intended range 0..255, recorded by
the predicate `ValidB` where a proof needs it).  Images carry a PIL-style
mode, a size, and a pixel function.  The PIL primitives used by the source
(`ImageFilter.MaxFilter`, `ImageMath` subtraction, `Image.composite`,
`Image.paste` with an alpha mask) are embedded with Pillow's documented
semantics; in particular `paste`/`composite` with an 8-bit mask blend the
two layers with weight `mask/255` using Pillow's MULDIV255 rounding, and
grayscale dilation treats out-of-bounds neighbours as 0.

The floating-point scale computation of `create_square_image`
(`min(size/w, size/h)` on Python floats) is idealized as exact rational
arithmetic; claims that hinge on the float rounding itself are flagged, the
geometric facts proved here are insensitive to that rounding.
-/

inductive Mode where
  | RGBA
  | RGB
  | L
deriving DecidableEq

abbrev Pixel := Nat × Nat × Nat × Nat

structure Img where
  mode : Mode
  width : Nat
  height : Nat
  px : Nat → Nat → Pixel

/-- All pixel components of the (in-bounds part of the) image are 8-bit. -/
def ValidB (img : Img) : Prop :=
  ∀ x, x < img.width → ∀ y, y < img.height →
    (img.px x y).1 ≤ 255 ∧ (img.px x y).2.1 ≤ 255 ∧
    (img.px x y).2.2.1 ≤ 255 ∧ (img.px x y).2.2.2 ≤ 255

instance (img : Img) : Decidable (ValidB img) := by
  unfold ValidB; infer_instance

/-- Pillow's MULDIV255 macro: division of `a * b` by 255 with rounding,
computed as `tmp = a*b + 128; ((tmp >> 8) + tmp) >> 8`. -/
def muldiv255 (a b : Nat) : Nat :=
  let tmp := a * b + 128
  (tmp / 256 + tmp) / 256

/-- Pillow's BLEND macro, used by `paste`/`composite` with an 8-bit mask:
keep the current pixel `bg` with weight `255 - m` and take the pasted pixel
`fg` with weight `m`. -/
def blend (m bg fg : Nat) : Nat :=
  muldiv255 bg (255 - m) + muldiv255 fg m

def blendPx (m : Nat) (bg fg : Pixel) : Pixel :=
  (blend m bg.1 fg.1, blend m bg.2.1 fg.2.1,
   blend m bg.2.2.1 fg.2.2.1, blend m bg.2.2.2 fg.2.2.2)

/-- Alpha channel of an image (`img.split()[-1]` on an RGBA image). -/
def alphaAt (img : Img) (x y : Nat) : Nat := (img.px x y).2.2.2

/-- Grayscale dilation with a square structuring element of side `2*r + 1`
(`ImageFilter.MaxFilter(2*r + 1)`): maximum of the channel over the
neighbourhood, out-of-bounds neighbours contributing 0. -/
def dilate (w h r : Nat) (a : Nat → Nat → Nat) (x y : Nat) : Nat :=
  Finset.sup (Finset.range (2 * r + 1) ×ˢ Finset.range (2 * r + 1)) fun d =>
    let xi : Int := (x : Int) + d.1 - r
    let yi : Int := (y : Int) + d.2 - r
    if 0 ≤ xi ∧ xi < (w : Int) ∧ 0 ≤ yi ∧ yi < (h : Int) then
      a xi.toNat yi.toNat
    else 0

/-- The outline mask of `add_white_outline`:
`ImageMath` evaluates `max(expanded_alpha - alpha, 0)` in 32-bit integers and
`.convert('L')` clamps the result to 0..255. -/
def outline_mask (img : Img) (r x y : Nat) : Nat :=
  min (Int.toNat (max ((dilate img.width img.height r (alphaAt img) x y : Int)
      - (alphaAt img x y : Int)) 0)) 255

/-- `Image.composite(image1, image2, mask)`: a copy of `image2` with
`image1` pasted over it under `mask`, i.e. a per-pixel mask-weighted blend. -/
def composite (img1 img2 : Img) (mask : Nat → Nat → Nat) : Img :=
  { img2 with px := fun x y => blendPx (mask x y) (img2.px x y) (img1.px x y) }

/-- `add_white_outline(img, outline_width)` from `src/main.py`: return the
image unchanged unless it is RGBA; otherwise dilate the alpha channel with a
kernel of side `2*outline_width + 1`, form the mask `max(dilated - alpha, 0)`
and composite a solid `(235, 225, 215, 255)` fill over the image under that
mask. -/
def add_white_outline (img : Img) (outline_width : Nat) : Img :=
  if img.mode ≠ Mode.RGBA then img
  else
    let outline_img : Img :=
      { mode := Mode.RGBA, width := img.width, height := img.height,
        px := fun _ _ => (235, 225, 215, 255) }
    composite outline_img img (outline_mask img outline_width)

/-- The new dimensions computed by `create_square_image`:
`scale = min(size / width, size / height)` and
`(int(width * scale), int(height * scale))`.  The Python float division is
idealized as exact rational division (`int` truncation of a non-negative
value is the floor). -/
def fitDims (w h size : Nat) : Nat × Nat :=
  let scale : ℚ := min ((size : ℚ) / (w : ℚ)) ((size : ℚ) / (h : ℚ))
  (Int.toNat ⌊(w : ℚ) * scale⌋, Int.toNat ⌊(h : ℚ) * scale⌋)

/-- `base.paste(fg, (ox, oy), fg)` on RGBA images: inside the pasted
rectangle every channel is blended with the alpha channel of `fg` as the
mask, outside it the base image is untouched. -/
def pasteRGBA (base fg : Img) (ox oy : Nat) : Img :=
  { base with px := fun x y =>
      (if ox ≤ x ∧ x < ox + fg.width ∧ oy ≤ y ∧ y < oy + fg.height then
        blendPx (fg.px (x - ox) (y - oy)).2.2.2 (base.px x y) (fg.px (x - ox) (y - oy))
      else base.px x y) }

/-- `base.paste(fg, (ox, oy))` without a mask: plain rectangle copy. -/
def pasteRGB (base fg : Img) (ox oy : Nat) : Img :=
  { base with px := fun x y =>
      (if ox ≤ x ∧ x < ox + fg.width ∧ oy ≤ y ∧ y < oy + fg.height then
        fg.px (x - ox) (y - oy)
      else base.px x y) }

/-- `create_square_image(img, size)` from `src/main.py`, parameterized over
the resampling kernel `resample` (the source uses `Image.Resampling.LANCZOS`;
the claims proved below use only that resampling preserves the mode and
produces the requested dimensions).  A transparent RGBA canvas is used when
the resized image is RGBA (pasting with its alpha as the mask), else an
opaque white RGB canvas; the image is centered with floor-division offsets. -/
def create_square_image (resample : Img → Nat → Nat → Img) (img : Img)
    (size : Nat) : Img :=
  let nd := fitDims img.width img.height size
  let img_resized := resample img nd.1 nd.2
  if img_resized.mode = Mode.RGBA then
    pasteRGBA
      { mode := Mode.RGBA, width := size, height := size, px := fun _ _ => (0, 0, 0, 0) }
      img_resized ((size - nd.1) / 2) ((size - nd.2) / 2)
  else
    pasteRGB
      { mode := Mode.RGB, width := size, height := size, px := fun _ _ => (255, 255, 255, 255) }
      img_resized ((size - nd.1) / 2) ((size - nd.2) / 2)

/-- `img.convert('RGBA')`: RGB gains an opaque alpha channel, grayscale is
replicated into the color channels with an opaque alpha. -/
def convertPx (img : Img) (x y : Nat) : Pixel :=
  match img.mode with
  | Mode.RGBA => img.px x y
  | Mode.RGB => ((img.px x y).1, (img.px x y).2.1, (img.px x y).2.2.1, 255)
  | Mode.L => ((img.px x y).1, (img.px x y).1, (img.px x y).1, 255)

def convertRGBA (img : Img) : Img :=
  { mode := Mode.RGBA, width := img.width, height := img.height, px := convertPx img }

/-- Step 3 of `process_image`: `if img.mode != 'RGBA': img = img.convert('RGBA')`. -/
def toRGBA (img : Img) : Img :=
  if img.mode ≠ Mode.RGBA then convertRGBA img else img

/-- Steps 3-5 of `process_image` applied to the working image: convert to
RGBA when needed, normalize onto the 512 canvas, add the 6-pixel outline. -/
def pipelineImg (resample : Img → Nat → Nat → Img) (img : Img) : Img :=
  add_white_outline (create_square_image resample (toRGBA img) 512) 6

/-- Outcome of the external `rembg.remove` call: whether the returned value
is a Python `bytes` object, its length, and the result of decoding it with
`Image.open` (which may itself raise). -/
structure RembgOut where
  isBytes : Bool
  size : Nat
  decode : Except String Img

/-- Outcome environment for one `process_image` invocation: the result of
each effectful primitive the function performs (exception or value). -/
structure Env where
  validate : Except String Unit
  readInput : Except String Unit
  rembg : Except String RembgOut
  openOriginal : Except String Img
  save : Except String Unit
  rename : Except String Unit

/-- The dynamic type of the `old_path` argument, as far as
`isinstance(old_path, Path)` can observe it. -/
inductive PyArg where
  | pathArg
  | noneArg
  | strArg
deriving DecidableEq

def isPath : PyArg → Bool
  | PyArg.pathArg => true
  | _ => false

/-- The inner try/except of `process_image` around the `rembg.remove` call:
on a bytes result longer than 100 bytes that decodes, the decoded image is
the working image; on any failure (exception from the call, non-bytes or
undersized result, decode error) a warning is logged and the original file
is re-opened.  The first component is the working image (or the exception
escaping to the outer handler when the fallback open itself raises), the
second records whether the warning was logged. -/
def rembgStep (env : Env) : Except String Img × Bool :=
  match env.rembg with
  | Except.ok out =>
      if out.isBytes = true ∧ 100 < out.size then
        match out.decode with
        | Except.ok img => (Except.ok img, false)
        | Except.error _ => (env.openOriginal, true)
      else (env.openOriginal, true)
  | Except.error _ => (env.openOriginal, true)

/-- The success criterion of step 2 as a boolean: `rembg.remove` returned,
its result is a `bytes` of more than 100 bytes, and the result decodes. -/
def rembgValid : Except String RembgOut → Bool
  | Except.error _ => false
  | Except.ok out =>
      out.isBytes && decide (100 < out.size) &&
        (match out.decode with
         | Except.ok _ => true
         | Except.error _ => false)

/-- Observable outcome of one `process_image` invocation. -/
structure ProcResult where
  savedOutput : Option Img
  renameCalled : Bool
  rembgCalls : Nat
  warned : Bool
  errored : Bool

/-- Body of `process_image` (everything inside the outer try): the result
record accumulated so far, paired with `some e` when an exception reaches
the outer handler.  Validation failure is an early `return`, not an
exception. -/
def processBody (resample : Img → Nat → Nat → Img) (env : Env) (old : PyArg) :
    ProcResult × Option String :=
  match env.validate with
  | Except.error _ =>
      (⟨none, false, 0, false, true⟩, none)
  | Except.ok _ =>
      match env.readInput with
      | Except.error e => (⟨none, false, 0, false, false⟩, some e)
      | Except.ok _ =>
          match rembgStep env with
          | (Except.error e, w) => (⟨none, false, 1, w, false⟩, some e)
          | (Except.ok img, w) =>
              let final := pipelineImg resample img
              match env.save with
              | Except.error e => (⟨none, false, 1, w, false⟩, some e)
              | Except.ok _ =>
                  if isPath old = true then
                    match env.rename with
                    | Except.error e => (⟨some final, true, 1, w, false⟩, some e)
                    | Except.ok _ => (⟨some final, true, 1, w, false⟩, none)
                  else (⟨some final, false, 1, w, false⟩, none)

/-- `process_image(input_path, output_path, old_path)` from `src/main.py`:
the body runs under an outer `except Exception` handler that logs an error
and returns normally. -/
def process_image (resample : Img → Nat → Nat → Img) (env : Env) (old : PyArg) :
    ProcResult :=
  match processBody resample env old with
  | (r, none) => r
  | (r, some _) => { r with errored := true }

/-! ### Concrete instances used to evaluate the embedding -/

/-- A resampling kernel that keeps the pixel function and retargets the
dimensions; it satisfies the mode- and dimension-preservation properties
assumed of `Image.resize`. -/
def cResample : Img → Nat → Nat → Img :=
  fun i nw nh => { mode := i.mode, width := nw, height := nh, px := i.px }

def c9img : Img :=
  { mode := Mode.RGB, width := 2, height := 2, px := fun _ _ => (10, 20, 30, 255) }

def c8img : Img :=
  { mode := Mode.RGBA, width := 2, height := 2,
    px := fun x y => (40 * x, 30 * y, 20, 100 * x * y) }

def c7img : Img :=
  { mode := Mode.RGBA, width := 3, height := 3, px := fun x y => (x, y, 0, 200) }

def c1img : Img :=
  { mode := Mode.RGBA, width := 2, height := 1,
    px := fun x _ => (if x = 0 then (0, 0, 0, 0) else (0, 0, 0, 128)) }

/-- An opaque white 300 x 600 RGB source image (a decoded opaque JPEG). -/
def cSrc : Img :=
  { mode := Mode.RGB, width := 300, height := 600, px := fun _ _ => (255, 255, 255, 255) }

/-- Run where the segmentation call raises and everything else succeeds. -/
def envFallbackOk : Env :=
  { validate := Except.ok (), readInput := Except.ok (),
    rembg := Except.error "rembg failed", openOriginal := Except.ok cSrc,
    save := Except.ok (), rename := Except.ok () }

/-- Run where saving the output raises. -/
def envSaveFail : Env :=
  { validate := Except.ok (), readInput := Except.ok (),
    rembg := Except.error "rembg failed", openOriginal := Except.ok cSrc,
    save := Except.error "disk full", rename := Except.ok () }

/-- Run where validation of the source file fails. -/
def envValidateFail : Env :=
  { validate := Except.error "corrupt image", readInput := Except.ok (),
    rembg := Except.error "unused", openOriginal := Except.ok cSrc,
    save := Except.ok (), rename := Except.ok () }

set_option maxRecDepth 8000

/-! ### Arithmetic facts about Pillow's MULDIV255 blend -/

theorem muldiv255_zero_right (a : Nat) : muldiv255 a 0 = 0 := by
  simp [muldiv255]

theorem muldiv255_255 : ∀ a, a ≤ 255 → muldiv255 a 255 = a := by decide

theorem blend_zero (bg fg : Nat) (h : bg ≤ 255) : blend 0 bg fg = bg := by
  unfold blend
  rw [Nat.sub_zero, muldiv255_255 bg h, muldiv255_zero_right, Nat.add_zero]

theorem blend_255 (bg fg : Nat) (h : fg ≤ 255) : blend 255 bg fg = fg := by
  unfold blend
  rw [Nat.sub_self, muldiv255_zero_right, muldiv255_255 fg h, Nat.zero_add]

theorem blendPx_zero (bg fg : Pixel) (h1 : bg.1 ≤ 255) (h2 : bg.2.1 ≤ 255)
    (h3 : bg.2.2.1 ≤ 255) (h4 : bg.2.2.2 ≤ 255) : blendPx 0 bg fg = bg := by
  unfold blendPx
  rw [blend_zero _ _ h1, blend_zero _ _ h2, blend_zero _ _ h3, blend_zero _ _ h4]

theorem blendPx_255 (bg fg : Pixel) (h1 : fg.1 ≤ 255) (h2 : fg.2.1 ≤ 255)
    (h3 : fg.2.2.1 ≤ 255) (h4 : fg.2.2.2 ≤ 255) : blendPx 255 bg fg = fg := by
  unfold blendPx
  rw [blend_255 _ _ h1, blend_255 _ _ h2, blend_255 _ _ h3, blend_255 _ _ h4]

/-! ### Bounds on grayscale dilation -/

theorem dilate_le (w h r : Nat) (a : Nat → Nat → Nat) (x y c : Nat)
    (hc : ∀ u v, u < w → v < h → (x : Int) - r ≤ u → (u : Int) ≤ x + r →
      (y : Int) - r ≤ v → (v : Int) ≤ y + r → a u v ≤ c) :
    dilate w h r a x y ≤ c := by
  unfold dilate
  apply Finset.sup_le
  intro d hd
  obtain ⟨hd1, hd2⟩ := Finset.mem_product.mp hd
  rw [Finset.mem_range] at hd1 hd2
  dsimp only
  split
  next hb =>
    obtain ⟨h1, h2, h3, h4⟩ := hb
    apply hc
    · omega
    · omega
    · omega
    · omega
    · omega
    · omega
  next hb => exact Nat.zero_le c

theorem le_dilate (w h r : Nat) (a : Nat → Nat → Nat) (x y : Nat)
    (hx : x < w) (hy : y < h) : a x y ≤ dilate w h r a x y := by
  unfold dilate
  have hm : ((r, r) : Nat × Nat) ∈ Finset.range (2 * r + 1) ×ˢ Finset.range (2 * r + 1) := by
    rw [Finset.mem_product]
    constructor <;> (rw [Finset.mem_range]; omega)
  refine le_trans ?_ (Finset.le_sup hm)
  dsimp only
  have e1 : (x : Int) + (r : Int) - (r : Int) = (x : Int) := by omega
  have e2 : (y : Int) + (r : Int) - (r : Int) = (y : Int) := by omega
  rw [e1, e2, if_pos]
  · rw [Int.toNat_natCast, Int.toNat_natCast]
  · exact ⟨Int.natCast_nonneg x, by exact_mod_cast hx,
      Int.natCast_nonneg y, by exact_mod_cast hy⟩

theorem dilate_eq_of_const (w h r : Nat) (a : Nat → Nat → Nat) (x y : Nat)
    (hx : x < w) (hy : y < h)
    (hc : ∀ u v, u < w → v < h → (x : Int) - r ≤ u → (u : Int) ≤ x + r →
      (y : Int) - r ≤ v → (v : Int) ≤ y + r → a u v = a x y) :
    dilate w h r a x y = a x y :=
  le_antisymm
    (dilate_le w h r a x y (a x y)
      (fun u v h1 h2 h3 h4 h5 h6 => le_of_eq (hc u v h1 h2 h3 h4 h5 h6)))
    (le_dilate w h r a x y hx hy)

theorem dilate_radius_zero (w h : Nat) (a : Nat → Nat → Nat) (x y : Nat)
    (hx : x < w) (hy : y < h) : dilate w h 0 a x y = a x y := by
  apply dilate_eq_of_const w h 0 a x y hx hy
  intro u v h1 h2 h3 h4 h5 h6
  have hu : u = x := by omega
  have hv : v = y := by omega
  rw [hu, hv]

theorem outline_mask_eq_zero (img : Img) (r x y : Nat)
    (hd : dilate img.width img.height r (alphaAt img) x y = alphaAt img x y) :
    outline_mask img r x y = 0 := by
  unfold outline_mask
  rw [hd]
  simp

theorem add_white_outline_rgba (img : Img) (r : Nat) (hm : img.mode = Mode.RGBA) :
    add_white_outline img r =
      composite
        { mode := Mode.RGBA, width := img.width, height := img.height,
          px := fun _ _ => (235, 225, 215, 255) }
        img (outline_mask img r) := by
  unfold add_white_outline
  rw [if_neg (by simp [hm])]

/-! ### Control-flow lemmas for the processor embedding -/

theorem rembgStep_fallback (env : Env) (h : rembgValid env.rembg = false) :
    rembgStep env = (env.openOriginal, true) := by
  cases henv : env.rembg with
  | error e => simp [rembgStep, henv]
  | ok out =>
    cases hd : out.decode with
    | ok img =>
      have hneg : ¬(out.isBytes = true ∧ 100 < out.size) := by
        intro hb
        simp [rembgValid, henv, hb.1, hb.2, hd] at h
      simp [rembgStep, henv, hneg]
    | error e2 =>
      simp only [rembgStep, henv]
      split
      · rw [hd]
      · rfl

theorem rembgStep_valid (env : Env) (out : RembgOut) (img : Img)
    (h1 : env.rembg = Except.ok out) (h2 : out.isBytes = true) (h3 : 100 < out.size)
    (h4 : out.decode = Except.ok img) : rembgStep env = (Except.ok img, false) := by
  simp [rembgStep, h1, h2, h3, h4]

theorem processBody_validate_error (resample : Img → Nat → Nat → Img) (env : Env)
    (old : PyArg) (e : String) (hv : env.validate = Except.error e) :
    processBody resample env old = (⟨none, false, 0, false, true⟩, none) := by
  unfold processBody
  rw [hv]

theorem processBody_read_error (resample : Img → Nat → Nat → Img) (env : Env)
    (old : PyArg) (e : String) (hv : env.validate = Except.ok ())
    (hr : env.readInput = Except.error e) :
    processBody resample env old = (⟨none, false, 0, false, false⟩, some e) := by
  unfold processBody
  rw [hv, hr]

theorem processBody_fallback_raise (resample : Img → Nat → Nat → Img) (env : Env)
    (old : PyArg) (e : String) (w : Bool) (hv : env.validate = Except.ok ())
    (hr : env.readInput = Except.ok ()) (hs : rembgStep env = (Except.error e, w)) :
    processBody resample env old = (⟨none, false, 1, w, false⟩, some e) := by
  unfold processBody
  rw [hv, hr, hs]

theorem processBody_save_error (resample : Img → Nat → Nat → Img) (env : Env)
    (old : PyArg) (img : Img) (w : Bool) (e : String) (hv : env.validate = Except.ok ())
    (hr : env.readInput = Except.ok ()) (hs : rembgStep env = (Except.ok img, w))
    (hsv : env.save = Except.error e) :
    processBody resample env old = (⟨none, false, 1, w, false⟩, some e) := by
  unfold processBody
  rw [hv, hr, hs, hsv]

theorem processBody_nopath (resample : Img → Nat → Nat → Img) (env : Env)
    (old : PyArg) (img : Img) (w : Bool) (hv : env.validate = Except.ok ())
    (hr : env.readInput = Except.ok ()) (hs : rembgStep env = (Except.ok img, w))
    (hsv : env.save = Except.ok ()) (hp : isPath old = false) :
    processBody resample env old = (⟨some (pipelineImg resample img), false, 1, w, false⟩, none) := by
  unfold processBody
  rw [hv, hr, hs, hsv]
  simp [hp]

theorem processBody_path_rename_ok (resample : Img → Nat → Nat → Img) (env : Env)
    (old : PyArg) (img : Img) (w : Bool) (hv : env.validate = Except.ok ())
    (hr : env.readInput = Except.ok ()) (hs : rembgStep env = (Except.ok img, w))
    (hsv : env.save = Except.ok ()) (hp : isPath old = true)
    (hrn : env.rename = Except.ok ()) :
    processBody resample env old = (⟨some (pipelineImg resample img), true, 1, w, false⟩, none) := by
  unfold processBody
  rw [hv, hr, hs, hsv]
  simp [hp, hrn]

theorem processBody_path_rename_error (resample : Img → Nat → Nat → Img) (env : Env)
    (old : PyArg) (img : Img) (w : Bool) (e : String) (hv : env.validate = Except.ok ())
    (hr : env.readInput = Except.ok ()) (hs : rembgStep env = (Except.ok img, w))
    (hsv : env.save = Except.ok ()) (hp : isPath old = true)
    (hrn : env.rename = Except.error e) :
    processBody resample env old = (⟨some (pipelineImg resample img), true, 1, w, false⟩, some e) := by
  unfold processBody
  rw [hv, hr, hs, hsv]
  simp [hp, hrn]

theorem process_image_of_body_none (resample : Img → Nat → Nat → Img) (env : Env)
    (old : PyArg) (res : ProcResult) (h : processBody resample env old = (res, none)) :
    process_image resample env old = res := by
  unfold process_image
  rw [h]

theorem process_image_of_body_some (resample : Img → Nat → Nat → Img) (env : Env)
    (old : PyArg) (res : ProcResult) (e : String)
    (h : processBody resample env old = (res, some e)) :
    process_image resample env old = { res with errored := true } := by
  unfold process_image
  rw [h]

/-! ### Facts about the outline generator -/

theorem add_white_outline_of_not_rgba (img : Img) (r : Nat)
    (h : img.mode ≠ Mode.RGBA) : add_white_outline img r = img := by
  unfold add_white_outline
  rw [if_pos h]

/-- C9: for every image without an alpha channel (any mode other than RGBA)
and every outline width, `add_white_outline` returns its input unchanged; in
particular a fully opaque image with no alpha channel comes back equal to
the input. -/
theorem add_white_outline_no_alpha_noop (img : Img) (r : Nat)
    (h : img.mode ≠ Mode.RGBA) : add_white_outline img r = img :=
  add_white_outline_of_not_rgba img r h

theorem add_white_outline_no_alpha_noop_witness :
    c9img.mode ≠ Mode.RGBA ∧ add_white_outline c9img 6 = c9img :=
  ⟨by decide, add_white_outline_no_alpha_noop c9img 6 (by decide)⟩

/-- C8: with `width_px = 0` the dilation kernel has side `2*0 + 1 = 1` and
is the identity, so the outline mask is all zero and `add_white_outline`
returns an image pixel-for-pixel identical to its input (same mode and
dimensions, same pixel at every in-bounds coordinate). -/
theorem add_white_outline_width_zero (img : Img) (hv : ValidB img) :
    (add_white_outline img 0).mode = img.mode ∧
    (add_white_outline img 0).width = img.width ∧
    (add_white_outline img 0).height = img.height ∧
    ∀ x, x < img.width → ∀ y, y < img.height →
      (add_white_outline img 0).px x y = img.px x y := by
  by_cases hm : img.mode = Mode.RGBA
  · rw [add_white_outline_rgba img 0 hm]
    refine ⟨rfl, rfl, rfl, ?_⟩
    intro x hx y hy
    have hmask : outline_mask img 0 x y = 0 :=
      outline_mask_eq_zero img 0 x y
        (dilate_radius_zero img.width img.height (alphaAt img) x y hx hy)
    show blendPx (outline_mask img 0 x y) (img.px x y) (235, 225, 215, 255) = img.px x y
    rw [hmask]
    obtain ⟨h1, h2, h3, h4⟩ := hv x hx y hy
    exact blendPx_zero _ _ h1 h2 h3 h4
  · rw [add_white_outline_of_not_rgba img 0 hm]
    exact ⟨rfl, rfl, rfl, fun x _ y _ => rfl⟩

theorem add_white_outline_width_zero_witness :
    ValidB c8img ∧ (add_white_outline c8img 0).px 1 1 = c8img.px 1 1 :=
  ⟨by decide,
    (add_white_outline_width_zero c8img (by decide)).2.2.2 1 (by decide) 1 (by decide)⟩

/-- C7: the outline mask `max(dilatedAlpha - originalAlpha, 0)` is zero at
every in-bounds pixel whose alpha value equals that of all in-bounds pixels
of its `(2r+1) x (2r+1)` neighbourhood (out-of-bounds neighbours are treated
as 0 by the dilation maximum), so the mask can be non-zero only near alpha
transitions. -/
theorem outline_mask_locally_const (img : Img) (r x y : Nat)
    (hx : x < img.width) (hy : y < img.height)
    (hc : ∀ u, u < img.width → ∀ v, v < img.height →
      (x : Int) - r ≤ u → (u : Int) ≤ x + r →
      (y : Int) - r ≤ v → (v : Int) ≤ y + r →
      alphaAt img u v = alphaAt img x y) :
    outline_mask img r x y = 0 :=
  outline_mask_eq_zero img r x y
    (dilate_eq_of_const img.width img.height r (alphaAt img) x y hx hy
      (fun u v h1 h2 h3 h4 h5 h6 => hc u h1 v h2 h3 h4 h5 h6))

theorem outline_mask_locally_const_witness :
    (1 : Nat) < c7img.width ∧ outline_mask c7img 1 1 1 = 0 :=
  ⟨by decide,
    outline_mask_locally_const c7img 1 1 1 (by decide) (by decide)
      (fun u hu v hv h3 h4 h5 h6 => rfl)⟩

/-- C1 (amended): the composite of `add_white_outline` uses the outline mask
as a per-pixel blend weight, not as a binary selector: the result is
Pillow's mask-weighted blend of the original pixel and the fill color
`(235, 225, 215, 255)`; where the mask is 0 the original pixel is kept
exactly, and where the mask is 255 the fill color replaces it exactly. -/
theorem add_white_outline_blend (img : Img) (r x y : Nat)
    (hm : img.mode = Mode.RGBA) (hv : ValidB img)
    (hx : x < img.width) (hy : y < img.height) :
    (add_white_outline img r).px x y
        = blendPx (outline_mask img r x y) (img.px x y) (235, 225, 215, 255) ∧
    (outline_mask img r x y = 0 → (add_white_outline img r).px x y = img.px x y) ∧
    (outline_mask img r x y = 255 →
      (add_white_outline img r).px x y = (235, 225, 215, 255)) := by
  rw [add_white_outline_rgba img r hm]
  refine ⟨rfl, ?_, ?_⟩
  · intro h0
    show blendPx (outline_mask img r x y) (img.px x y) (235, 225, 215, 255) = img.px x y
    rw [h0]
    obtain ⟨h1, h2, h3, h4⟩ := hv x hx y hy
    exact blendPx_zero _ _ h1 h2 h3 h4
  · intro h255
    show blendPx (outline_mask img r x y) (img.px x y) (235, 225, 215, 255)
        = (235, 225, 215, 255)
    rw [h255]
    exact blendPx_255 _ _ (by norm_num) (by norm_num) (by norm_num) (by norm_num)

/-- C1 (counterexample): on a 2x1 RGBA image with alpha values 0 and 128,
the outline mask at pixel (0,0) is 128 (non-zero), yet the composited pixel
is the blend `(118, 113, 108, 128)` - neither the fill color
`(235, 225, 215, 255)` nor the original pixel: a non-zero mask value does
not select the fill color. -/
theorem add_white_outline_not_binary :
    0 < outline_mask c1img 6 0 0 ∧
    (add_white_outline c1img 6).px 0 0 = (118, 113, 108, 128) ∧
    (add_white_outline c1img 6).px 0 0 ≠ (235, 225, 215, 255) ∧
    (add_white_outline c1img 6).px 0 0 ≠ c1img.px 0 0 := by
  refine ⟨by decide, by decide, by decide, by decide⟩

theorem add_white_outline_blend_witness :
    ValidB c1img ∧
    (add_white_outline c1img 6).px 0 0
      = blendPx (outline_mask c1img 6 0 0) (c1img.px 0 0) (235, 225, 215, 255) :=
  ⟨by decide,
    (add_white_outline_blend c1img 6 0 0 rfl (by decide) (by decide) (by decide)).1⟩

/-! ### Outcome of `process_image` in each scenario -/

theorem process_image_validate_error_result (resample : Img → Nat → Nat → Img)
    (env : Env) (old : PyArg) (e : String) (hv : env.validate = Except.error e) :
    process_image resample env old = ⟨none, false, 0, false, true⟩ :=
  process_image_of_body_none resample env old _
    (processBody_validate_error resample env old e hv)

theorem process_image_read_error_result (resample : Img → Nat → Nat → Img)
    (env : Env) (old : PyArg) (e : String) (hv : env.validate = Except.ok ())
    (hr : env.readInput = Except.error e) :
    process_image resample env old = ⟨none, false, 0, false, true⟩ :=
  process_image_of_body_some resample env old _ e
    (processBody_read_error resample env old e hv hr)

theorem process_image_fallback_raise_result (resample : Img → Nat → Nat → Img)
    (env : Env) (old : PyArg) (e : String) (w : Bool) (hv : env.validate = Except.ok ())
    (hr : env.readInput = Except.ok ()) (hs : rembgStep env = (Except.error e, w)) :
    process_image resample env old = ⟨none, false, 1, w, true⟩ :=
  process_image_of_body_some resample env old _ e
    (processBody_fallback_raise resample env old e w hv hr hs)

theorem process_image_save_error_result (resample : Img → Nat → Nat → Img)
    (env : Env) (old : PyArg) (img : Img) (w : Bool) (e : String)
    (hv : env.validate = Except.ok ()) (hr : env.readInput = Except.ok ())
    (hs : rembgStep env = (Except.ok img, w)) (hsv : env.save = Except.error e) :
    process_image resample env old = ⟨none, false, 1, w, true⟩ :=
  process_image_of_body_some resample env old _ e
    (processBody_save_error resample env old img w e hv hr hs hsv)

theorem process_image_after_save (resample : Img → Nat → Nat → Img) (env : Env)
    (old : PyArg) (img : Img) (w : Bool) (hv : env.validate = Except.ok ())
    (hr : env.readInput = Except.ok ()) (hs : rembgStep env = (Except.ok img, w))
    (hsv : env.save = Except.ok ()) :
    (process_image resample env old).savedOutput = some (pipelineImg resample img) ∧
    (process_image resample env old).warned = w ∧
    (process_image resample env old).rembgCalls = 1 ∧
    (process_image resample env old).renameCalled = isPath old ∧
    (isPath old = false → (process_image resample env old).errored = false) := by
  cases hp : isPath old with
  | false =>
    rw [process_image_of_body_none resample env old _
      (processBody_nopath resample env old img w hv hr hs hsv hp)]
    exact ⟨rfl, rfl, rfl, rfl, fun _ => rfl⟩
  | true =>
    cases hrn : env.rename with
    | error e =>
      rw [process_image_of_body_some resample env old _ e
        (processBody_path_rename_error resample env old img w e hv hr hs hsv hp hrn)]
      exact ⟨rfl, rfl, rfl, rfl, fun hq => Bool.noConfusion hq⟩
    | ok u =>
      cases u
      rw [process_image_of_body_none resample env old _
        (processBody_path_rename_ok resample env old img w hv hr hs hsv hp hrn)]
      exact ⟨rfl, rfl, rfl, rfl, fun hq => Bool.noConfusion hq⟩

/-! ### Claims about the processor control flow -/

/-- C3: `process_image` attempts the external segmentation operation at most
once on any run and exactly once whenever step 2 is reached (validation and
the file read succeeded); on any failed attempt -- exception, non-bytes
result, result of at most 100 bytes, or result that does not decode as an
image -- a warning is logged and the pipeline continues with the re-opened
original source image, whose processed form is the persisted output when
saving succeeds. -/
theorem process_image_rembg_once (resample : Img → Nat → Nat → Img) (env : Env)
    (old : PyArg) :
    (process_image resample env old).rembgCalls ≤ 1 ∧
    (env.validate = Except.ok () → env.readInput = Except.ok () →
      (process_image resample env old).rembgCalls = 1) ∧
    (∀ src : Img, env.validate = Except.ok () → env.readInput = Except.ok () →
      rembgValid env.rembg = false → env.openOriginal = Except.ok src →
      (process_image resample env old).warned = true ∧
      (env.save = Except.ok () →
        (process_image resample env old).savedOutput
          = some (pipelineImg resample src))) := by
  have hcalls : ∀ hv : env.validate = Except.ok (), ∀ hr : env.readInput = Except.ok (),
      (process_image resample env old).rembgCalls = 1 := by
    intro hv hr
    cases hs : rembgStep env with
    | mk i w =>
      cases i with
      | error e =>
        rw [process_image_fallback_raise_result resample env old e w hv hr hs]
      | ok img =>
        cases hsv : env.save with
        | error e =>
          rw [process_image_save_error_result resample env old img w e hv hr hs hsv]
        | ok u =>
          cases u
          exact (process_image_after_save resample env old img w hv hr hs hsv).2.2.1
  refine ⟨?_, hcalls, ?_⟩
  · cases hv : env.validate with
    | error e =>
      rw [process_image_validate_error_result resample env old e hv]
      exact Nat.zero_le 1
    | ok u =>
      cases u
      cases hr : env.readInput with
      | error e =>
        rw [process_image_read_error_result resample env old e hv hr]
        exact Nat.zero_le 1
      | ok u2 =>
        cases u2
        exact Nat.le_of_eq (hcalls hv hr)
  · intro src hv hr hf ho
    have hs : rembgStep env = (Except.ok src, true) := by
      rw [rembgStep_fallback env hf, ho]
    constructor
    · cases hsv : env.save with
      | error e =>
        rw [process_image_save_error_result resample env old src true e hv hr hs hsv]
      | ok u =>
        cases u
        exact (process_image_after_save resample env old src true hv hr hs hsv).2.1
    · intro hsv
      exact (process_image_after_save resample env old src true hv hr hs hsv).1

theorem process_image_rembg_once_witness :
    envFallbackOk.validate = Except.ok () ∧
    (process_image cResample envFallbackOk PyArg.noneArg).rembgCalls = 1 ∧
    (process_image cResample envFallbackOk PyArg.noneArg).warned = true :=
  ⟨rfl, (process_image_rembg_once cResample envFallbackOk PyArg.noneArg).2.1 rfl rfl,
    ((process_image_rembg_once cResample envFallbackOk PyArg.noneArg).2.2
      cSrc rfl rfl rfl rfl).1⟩

/-- C4: every exception reaching the outer handler of `process_image` (an
exception in steps 2-7 after validation succeeded) is caught, logged as an
error, and swallowed: the function still returns its partial result record
with the error flag set, and when no exception reaches the handler the body
result is returned as-is; in the embedding `process_image` is a total
function into `ProcResult`, so it never raises past its own boundary. -/
theorem process_image_swallow (resample : Img → Nat → Nat → Img) (env : Env)
    (old : PyArg) :
    ((processBody resample env old).2.isSome = true →
      process_image resample env old
        = { (processBody resample env old).1 with errored := true }) ∧
    ((processBody resample env old).2 = none →
      process_image resample env old = (processBody resample env old).1) := by
  unfold process_image
  cases hb : processBody resample env old with
  | mk r exc =>
    cases exc with
    | none => exact ⟨fun hq => by simp at hq, fun _ => rfl⟩
    | some e => exact ⟨fun _ => rfl, fun hq => by simp at hq⟩

theorem process_image_swallow_witness :
    (processBody cResample envSaveFail PyArg.noneArg).2.isSome = true ∧
    process_image cResample envSaveFail PyArg.noneArg
      = { (processBody cResample envSaveFail PyArg.noneArg).1 with errored := true } :=
  ⟨rfl, (process_image_swallow cResample envSaveFail PyArg.noneArg).1 rfl⟩

/-- C5: when validation of the source file fails, `process_image` logs an
error and aborts the item: no output is persisted, no relocation happens,
the segmentation operation is never attempted, and the function returns
normally. -/
theorem process_image_invalid_input (resample : Img → Nat → Nat → Img) (env : Env)
    (old : PyArg) (e : String) (hv : env.validate = Except.error e) :
    process_image resample env old =
      { savedOutput := none, renameCalled := false, rembgCalls := 0,
        warned := false, errored := true } :=
  process_image_validate_error_result resample env old e hv

theorem process_image_invalid_input_witness :
    envValidateFail.validate = Except.error "corrupt image" ∧
    process_image cResample envValidateFail PyArg.pathArg =
      { savedOutput := none, renameCalled := false, rembgCalls := 0,
        warned := false, errored := true } :=
  ⟨rfl, process_image_invalid_input cResample envValidateFail PyArg.pathArg
    "corrupt image" rfl⟩

/-- C10: on a run that reaches step 7 (validation, read, working-image
resolution and save all succeeded), the relocation of the original file is
attempted exactly when the archive argument is an instance of `Path`;
passing `None` or a plain string silently skips relocation, is not an
error, and the output is still persisted. -/
theorem process_image_rename_iff (resample : Img → Nat → Nat → Img) (env : Env)
    (old : PyArg) (src : Img) (w : Bool) (hv : env.validate = Except.ok ())
    (hr : env.readInput = Except.ok ()) (hs : rembgStep env = (Except.ok src, w))
    (hsv : env.save = Except.ok ()) :
    ((process_image resample env old).renameCalled = true ↔ isPath old = true) ∧
    (isPath old = false →
      (process_image resample env old).savedOutput = some (pipelineImg resample src) ∧
      (process_image resample env old).errored = false) := by
  obtain ⟨h1, h2, h3, h4, h5⟩ := process_image_after_save resample env old src w hv hr hs hsv
  refine ⟨?_, fun hp => ⟨h1, h5 hp⟩⟩
  rw [h4]

theorem process_image_rename_iff_witness :
    isPath PyArg.strArg = false ∧
    ((process_image cResample envFallbackOk PyArg.strArg).renameCalled = true
      ↔ isPath PyArg.strArg = true) ∧
    (process_image cResample envFallbackOk PyArg.strArg).savedOutput
      = some (pipelineImg cResample cSrc) :=
  ⟨rfl,
    (process_image_rename_iff cResample envFallbackOk PyArg.strArg cSrc true
      rfl rfl rfl rfl).1,
    ((process_image_rename_iff cResample envFallbackOk PyArg.strArg cSrc true
      rfl rfl rfl rfl).2 rfl).1⟩

/-! ### Geometry of the normalized canvas -/

theorem pasteRGBA_outside (base fg : Img) (ox oy x y : Nat)
    (h : ¬(ox ≤ x ∧ x < ox + fg.width ∧ oy ≤ y ∧ y < oy + fg.height)) :
    (pasteRGBA base fg ox oy).px x y = base.px x y := by
  simp only [pasteRGBA]
  rw [if_neg h]

theorem convertRGBA_width (img : Img) : (convertRGBA img).width = img.width := rfl

theorem convertRGBA_height (img : Img) : (convertRGBA img).height = img.height := rfl

theorem convertRGBA_mode (img : Img) : (convertRGBA img).mode = Mode.RGBA := rfl

theorem toRGBA_of_not_rgba (img : Img) (h : img.mode ≠ Mode.RGBA) :
    toRGBA img = convertRGBA img := if_pos h

theorem create_square_image_rgba (resample : Img → Nat → Nat → Img) (img : Img)
    (s : Nat)
    (hm : (resample img (fitDims img.width img.height s).1
      (fitDims img.width img.height s).2).mode = Mode.RGBA) :
    create_square_image resample img s =
      pasteRGBA
        { mode := Mode.RGBA, width := s, height := s, px := fun _ _ => (0, 0, 0, 0) }
        (resample img (fitDims img.width img.height s).1 (fitDims img.width img.height s).2)
        ((s - (fitDims img.width img.height s).1) / 2)
        ((s - (fitDims img.width img.height s).2) / 2) := by
  simp only [create_square_image]
  rw [if_pos hm]

/-- A canvas pixel whose whole 6-pixel neighbourhood misses the pasted
rectangle and sits on transparent base pixels stays `(0,0,0,0)` after the
outline pass: the mask is zero there and the blend keeps the base pixel. -/
theorem outline_canvas_padding (base fg : Img) (ox oy x y : Nat)
    (hbase_mode : base.mode = Mode.RGBA)
    (hbw : x < base.width) (hbh : y < base.height)
    (hzero : ∀ u v : Nat, (x : Int) - 6 ≤ u → (u : Int) ≤ x + 6 →
      (y : Int) - 6 ≤ v → (v : Int) ≤ y + 6 → base.px u v = (0, 0, 0, 0))
    (hout : ∀ u v : Nat, (x : Int) - 6 ≤ u → (u : Int) ≤ x + 6 →
      (y : Int) - 6 ≤ v → (v : Int) ≤ y + 6 →
      ¬(ox ≤ u ∧ u < ox + fg.width ∧ oy ≤ v ∧ v < oy + fg.height)) :
    (add_white_outline (pasteRGBA base fg ox oy) 6).px x y = (0, 0, 0, 0) := by
  have hCpx : ∀ u v : Nat, (x : Int) - 6 ≤ u → (u : Int) ≤ x + 6 →
      (y : Int) - 6 ≤ v → (v : Int) ≤ y + 6 →
      (pasteRGBA base fg ox oy).px u v = (0, 0, 0, 0) :=
    fun u v h1 h2 h3 h4 =>
      (pasteRGBA_outside base fg ox oy u v (hout u v h1 h2 h3 h4)).trans
        (hzero u v h1 h2 h3 h4)
  have hmask : outline_mask (pasteRGBA base fg ox oy) 6 x y = 0 := by
    apply outline_mask_eq_zero
    apply dilate_eq_of_const
    · exact hbw
    · exact hbh
    · intro u v hu hv h1 h2 h3 h4
      unfold alphaAt
      rw [hCpx u v (by omega) (by omega) (by omega) (by omega),
        hCpx x y (by omega) (by omega) (by omega) (by omega)]
  rw [add_white_outline_rgba (pasteRGBA base fg ox oy) 6 hbase_mode]
  show blendPx (outline_mask (pasteRGBA base fg ox oy) 6 x y)
      ((pasteRGBA base fg ox oy).px x y) (235, 225, 215, 255) = (0, 0, 0, 0)
  rw [hmask, hCpx x y (by omega) (by omega) (by omega) (by omega)]
  decide

/-- C2 (amended): for every valid source image without an alpha channel
(mode RGB) on a run where `process_image` reaches the save step (with the
segmentation fallback resolving to the source itself), the persisted output
is a 512 x 512 canvas, but its padding is fully transparent rather than
opaque white: every canvas pixel whose whole 6-pixel outline neighbourhood
lies outside the pasted content rectangle equals `(0, 0, 0, 0)`.  Opaque
white padding would require `create_square_image` to receive a non-alpha
image, which `process_image` never supplies because it converts the working
image to RGBA before normalizing. -/
theorem process_image_rgb_padding_transparent
    (resample : Img → Nat → Nat → Img)
    (hres : ∀ i a b, (resample i a b).mode = i.mode ∧
      (resample i a b).width = a ∧ (resample i a b).height = b)
    (env : Env) (old : PyArg) (src : Img) (hmode : src.mode = Mode.RGB)
    (hv : env.validate = Except.ok ()) (hr : env.readInput = Except.ok ())
    (hf : rembgValid env.rembg = false) (ho : env.openOriginal = Except.ok src)
    (hsv : env.save = Except.ok ()) :
    (process_image resample env old).savedOutput = some (pipelineImg resample src) ∧
    (pipelineImg resample src).width = 512 ∧
    (pipelineImg resample src).height = 512 ∧
    (∀ x y : Nat, x < 512 → y < 512 →
      (x + 6 < (512 - (fitDims src.width src.height 512).1) / 2 ∨
        (512 - (fitDims src.width src.height 512).1) / 2
          + (fitDims src.width src.height 512).1 + 6 ≤ x ∨
        y + 6 < (512 - (fitDims src.width src.height 512).2) / 2 ∨
        (512 - (fitDims src.width src.height 512).2) / 2
          + (fitDims src.width src.height 512).2 + 6 ≤ y) →
      (pipelineImg resample src).px x y = (0, 0, 0, 0)) := by
  have hs2 : rembgStep env = (Except.ok src, true) := by
    rw [rembgStep_fallback env hf, ho]
  have hmne : src.mode ≠ Mode.RGBA := by
    rw [hmode]
    exact fun hq => Mode.noConfusion hq
  have ht : toRGBA src = convertRGBA src := toRGBA_of_not_rgba src hmne
  have hmres : (resample (convertRGBA src)
      (fitDims (convertRGBA src).width (convertRGBA src).height 512).1
      (fitDims (convertRGBA src).width (convertRGBA src).height 512).2).mode
        = Mode.RGBA :=
    ((hres _ _ _).1).trans (convertRGBA_mode src)
  have hcs := create_square_image_rgba resample (convertRGBA src) 512 hmres
  rw [convertRGBA_width, convertRGBA_height] at hcs
  have hRw : (resample (convertRGBA src) (fitDims src.width src.height 512).1
      (fitDims src.width src.height 512).2).width
        = (fitDims src.width src.height 512).1 := (hres _ _ _).2.1
  have hRh : (resample (convertRGBA src) (fitDims src.width src.height 512).1
      (fitDims src.width src.height 512).2).height
        = (fitDims src.width src.height 512).2 := (hres _ _ _).2.2
  refine ⟨(process_image_after_save resample env old src true hv hr hs2 hsv).1,
    ?_, ?_, ?_⟩
  · unfold pipelineImg
    rw [ht, hcs, add_white_outline_rgba _ 6 rfl]
    rfl
  · unfold pipelineImg
    rw [ht, hcs, add_white_outline_rgba _ 6 rfl]
    rfl
  · intro x y hx hy hcond
    unfold pipelineImg
    rw [ht, hcs]
    apply outline_canvas_padding
    · rfl
    · exact hx
    · exact hy
    · intro u v h1 h2 h3 h4
      rfl
    · intro u v h1 h2 h3 h4
      rw [hRw, hRh]
      rcases hcond with hc | hc | hc | hc <;> (intro hin; omega)

theorem fitDims_300_600_512 : fitDims 300 600 512 = (256, 512) := by
  unfold fitDims
  norm_num [min_def]
  exact ⟨rfl, rfl⟩

/-- C2 (counterexample): a 300 x 600 opaque RGB source processed by
`process_image` with target size 512 (segmentation fails, the fallback
re-opens the source, saving succeeds) persists a 512 x 512 canvas whose
corner padding pixel (0,0) is fully transparent `(0, 0, 0, 0)` - the
content rectangle starts at x = 128 - and in particular is not opaque
white: the padding of a no-alpha source is transparent, not white. -/
theorem process_image_padding_not_white :
    (process_image cResample envFallbackOk PyArg.noneArg).savedOutput.map
        (fun o => (o.width, o.height, o.px 0 0)) = some (512, 512, ((0, 0, 0, 0) : Pixel)) ∧
    ((0, 0, 0, 0) : Pixel) ≠ (255, 255, 255, 255) := by
  have hsaved : (process_image cResample envFallbackOk PyArg.noneArg).savedOutput
      = some (pipelineImg cResample cSrc) :=
    (process_image_after_save cResample envFallbackOk PyArg.noneArg cSrc true
      rfl rfl rfl rfl).1
  rw [hsaved, Option.map_some']
  constructor
  · have h1 : toRGBA cSrc = convertRGBA cSrc := toRGBA_of_not_rgba cSrc (by decide)
    have hw : (convertRGBA cSrc).width = 300 := rfl
    have hh : (convertRGBA cSrc).height = 600 := rfl
    simp only [pipelineImg, create_square_image, h1, hw, hh, fitDims_300_600_512]
    decide
  · decide

theorem process_image_rgb_padding_transparent_witness :
    cSrc.mode = Mode.RGB ∧
    (pipelineImg cResample cSrc).width = 512 ∧
    (pipelineImg cResample cSrc).px 0 0 = (0, 0, 0, 0) :=
  ⟨rfl,
    (process_image_rgb_padding_transparent cResample (fun i a b => ⟨rfl, rfl, rfl⟩)
      envFallbackOk PyArg.noneArg cSrc rfl rfl rfl rfl rfl rfl).2.1,
    (process_image_rgb_padding_transparent cResample (fun i a b => ⟨rfl, rfl, rfl⟩)
      envFallbackOk PyArg.noneArg cSrc rfl rfl rfl rfl rfl rfl).2.2.2 0 0
      (by decide) (by decide)
      (Or.inl (by
        show 0 + 6 < (512 - (fitDims 300 600 512).1) / 2
        rw [fitDims_300_600_512]
        decide))⟩
